import Mathlib

/-!
Verification of the stream access-control module (zerver/lib/streams.py):
a shallow embedding of access_stream_common, access_stream_by_id,
access_stream_by_name and filter_stream_authorization over an explicit
database of streams, recipients and subscriptions, followed by theorems
settling the specified properties.
-/

namespace Zulip

/-- A user profile: carries its own id and the id of the organization
(realm) it belongs to. -/
structure UserProfile where
  id : Nat
  realm_id : Nat
deriving DecidableEq

/-- A stream (channel): belongs to one realm, has an id, a name and the
invite_only flag. -/
structure Stream where
  id : Nat
  realm_id : Nat
  name : String
  invite_only : Bool
deriving DecidableEq

/-- A recipient row: an opaque target identifier with a type tag and the
id of the object it targets (for stream recipients, the stream id). -/
structure Recipient where
  id : Nat
  type : Nat
  type_id : Nat
deriving DecidableEq

/-- The type tag of stream recipients (Recipient.STREAM in the source). -/
def Recipient.STREAM : Nat := 2

/-- A subscription row: links a user to a recipient, with an active flag. -/
structure Subscription where
  id : Nat
  user_profile_id : Nat
  recipient_id : Nat
  active : Bool
deriving DecidableEq

/-- The read-only database the module consults through its collaborators. -/
structure DB where
  streams : List Stream
  recipients : List Recipient
  subscriptions : List Subscription
deriving DecidableEq

/-- Database well-formedness used by the data model: recipient rows have
pairwise distinct ids, and at most one recipient row exists per
(type, type_id) pair (one recipient per channel). -/
def DB.WF (db : DB) : Prop :=
  (db.recipients.map (fun r => r.id)).Nodup ∧
  (db.recipients.map (fun r => (r.type, r.type_id))).Nodup

/-- The single error kind the module signals: JsonableError carrying a
message, plus the collaborator-level DoesNotExist failure raised when a
recipient row is absent. -/
inductive StreamError where
  | jsonableError (msg : String)
  | doesNotExist
deriving DecidableEq

instance {ε α : Type} [DecidableEq ε] [DecidableEq α] : DecidableEq (Except ε α) :=
  fun x y =>
  match x, y with
  | .ok a, .ok b =>
    if h : a = b then .isTrue (by rw [h])
    else .isFalse (fun hc => h (by injection hc))
  | .ok _, .error _ => .isFalse (fun hc => Except.noConfusion hc)
  | .error _, .ok _ => .isFalse (fun hc => Except.noConfusion hc)
  | .error e, .error f =>
    if h : e = f then .isTrue (by rw [h])
    else .isFalse (fun hc => h (by injection hc))

/-- Modelled from the spec: get_recipient(kind, channel_id) is a single
recipient lookup provided by zerver/models.py, which is outside the
excerpt; it returns the recipient row for the given type and type_id,
absent when no such row exists. -/
def get_recipient (db : DB) (rtype : Nat) (type_id : Nat) : Option Recipient :=
  db.recipients.find? (fun r => r.type == rtype && r.type_id == type_id)

/-- Modelled from the spec: bulk_get_recipients(kind, channel_ids) is the
bulk recipient lookup provided by zerver/models.py, outside the excerpt;
it returns a mapping keyed by type_id over the recipient rows whose
type matches and whose type_id occurs in the given id list. -/
def bulk_get_recipients (db : DB) (rtype : Nat) (type_ids : List Nat) :
    List (Nat × Recipient) :=
  (db.recipients.filter (fun r => r.type == rtype && type_ids.contains r.type_id)).map
    (fun r => (r.type_id, r))

/-- Modelled from the spec: the subscription store query
Subscription.objects.get(user_profile=..., recipient=..., active=True),
converted by the source into an optional result (absent on DoesNotExist). -/
def find_active_subscription (db : DB) (user_profile : UserProfile)
    (recipient : Recipient) : Option Subscription :=
  db.subscriptions.find? (fun sub =>
    sub.user_profile_id == user_profile.id &&
    sub.recipient_id == recipient.id &&
    sub.active)

/-- Modelled from the spec: the stream directory lookup
Stream.objects.get(id=stream_id) from zerver/models.py, outside the
excerpt; a global (not realm-scoped) lookup by id, absent when missing. -/
def get_stream_by_id (db : DB) (stream_id : Nat) : Option Stream :=
  db.streams.find? (fun s => s.id == stream_id)

/-- Modelled from the spec: get_stream(stream_name, realm) from
zerver/models.py, outside the excerpt; a channel lookup by name scoped
to the organization, absent when missing. -/
def get_stream (db : DB) (stream_name : String) (realm_id : Nat) : Option Stream :=
  db.streams.find? (fun s => s.name == stream_name && s.realm_id == realm_id)

/-- Modelled from the spec: Stream.is_public from zerver/models.py,
outside the excerpt; the spec states the public flag is derived from
invite_only. -/
def Stream.is_public (s : Stream) : Bool := !s.invite_only

/-- Embedding of access_stream_common: reject cross-realm access, resolve
the recipient, look up the active subscription, then admit public streams
unconditionally and private streams only with a subscription. -/
def access_stream_common (db : DB) (user_profile : UserProfile) (stream : Stream)
    (error : String) : Except StreamError (Recipient × Option Subscription) :=
  if stream.realm_id != user_profile.realm_id then
    .error (.jsonableError error)
  else
    match get_recipient db Recipient.STREAM stream.id with
    | none => .error .doesNotExist
    | some recipient =>
      let sub := find_active_subscription db user_profile recipient
      if stream.is_public then
        .ok (recipient, sub)
      else
        match sub with
        | some s => .ok (recipient, some s)
        | none => .error (.jsonableError error)

/-- Embedding of access_stream_by_id: global lookup by id, then delegate
to access_stream_common with the fixed generic message. -/
def access_stream_by_id (db : DB) (user_profile : UserProfile) (stream_id : Nat) :
    Except StreamError (Stream × Recipient × Option Subscription) :=
  let error := "Invalid stream id"
  match get_stream_by_id db stream_id with
  | none => .error (.jsonableError error)
  | some stream =>
    match access_stream_common db user_profile stream error with
    | .error e => .error e
    | .ok (recipient, sub) => .ok (stream, recipient, sub)

/-- The single quote character, used when the by-name error message embeds
the queried stream name. -/
def quoteMark : String := String.singleton (Char.ofNat 39)

/-- The error message of access_stream_by_name: embeds the queried name in
single quotes. -/
def invalid_stream_name_message (stream_name : String) : String :=
  "Invalid stream name " ++ quoteMark ++ stream_name ++ quoteMark

/-- Embedding of access_stream_by_name: realm-scoped lookup by name, then
delegate to access_stream_common with the name-bearing message. -/
def access_stream_by_name (db : DB) (user_profile : UserProfile)
    (stream_name : String) :
    Except StreamError (Stream × Recipient × Option Subscription) :=
  let error := invalid_stream_name_message stream_name
  match get_stream db stream_name user_profile.realm_id with
  | none => .error (.jsonableError error)
  | some stream =>
    match access_stream_common db user_profile stream error with
    | .error e => .error e
    | .ok (recipient, sub) => .ok (stream, recipient, sub)

/-- Stage of filter_stream_authorization: the recipients_map local, the
bulk recipient lookup keyed by the ids of the input streams. -/
def fsa_recipients_map (db : DB) (streams : List Stream) :
    List (Nat × Recipient) :=
  bulk_get_recipients db Recipient.STREAM (streams.map (fun s => s.id))

/-- Stage of filter_stream_authorization: the values of recipients_map,
the list passed to the bulk subscription query. -/
def fsa_recipient_values (db : DB) (streams : List Stream) : List Recipient :=
  (fsa_recipients_map db streams).map (fun p => p.2)

/-- Stage of filter_stream_authorization: the subs local, the bulk query
for active subscriptions of the user over the looked-up recipients. -/
def fsa_subs (db : DB) (user_profile : UserProfile) (streams : List Stream) :
    List Subscription :=
  db.subscriptions.filter (fun sub =>
    sub.user_profile_id == user_profile.id &&
    ((fsa_recipient_values db streams).map (fun r => r.id)).contains
      sub.recipient_id &&
    sub.active)

/-- Stage of filter_stream_authorization: the streams_subscribed local,
the stream ids reached by following each fetched subscription back to the
type_id of its recipient row. -/
def fsa_streams_subscribed (db : DB) (user_profile : UserProfile)
    (streams : List Stream) : List Nat :=
  (fsa_subs db user_profile streams).filterMap (fun sub =>
    (db.recipients.find? (fun r => r.id == sub.recipient_id)).map
      (fun r => r.type_id))

/-- Stage of filter_stream_authorization: the unauthorized_streams local,
holding each input stream that is invite_only and not subscribed, in
input order. -/
def fsa_unauthorized (db : DB) (user_profile : UserProfile)
    (streams : List Stream) : List Stream :=
  streams.filter (fun stream =>
    !(fsa_streams_subscribed db user_profile streams).contains stream.id &&
    stream.invite_only)

/-- Stage of filter_stream_authorization: the authorized_streams local,
holding each input stream whose id is not the id of an unauthorized
stream, in input order. -/
def fsa_authorized (db : DB) (user_profile : UserProfile)
    (streams : List Stream) : List Stream :=
  streams.filter (fun stream =>
    !((fsa_unauthorized db user_profile streams).map (fun t => t.id)).contains
      stream.id)

/-- Embedding of filter_stream_authorization: one bulk recipient lookup,
one bulk active-subscription query restricted to those recipients, the
set of subscribed stream ids, then the unauthorized list (unsubscribed
invite_only input streams, in input order) and the authorized list (input
streams whose id is not the id of an unauthorized stream, in input
order). -/
def filter_stream_authorization (db : DB) (user_profile : UserProfile)
    (streams : List Stream) : List Stream × List Stream :=
  (fsa_authorized db user_profile streams,
   fsa_unauthorized db user_profile streams)

/-- The property of being an active subscription of the given user to the
given recipient. -/
def IsActiveSub (user_profile : UserProfile) (recipient : Recipient)
    (sub : Subscription) : Prop :=
  sub.user_profile_id = user_profile.id ∧ sub.recipient_id = recipient.id ∧
  sub.active = true

lemma find_active_subscription_eq_none_iff (db : DB) (u : UserProfile)
    (r : Recipient) :
    find_active_subscription db u r = none ↔
      ¬ ∃ sub ∈ db.subscriptions, IsActiveSub u r sub := by
  unfold find_active_subscription
  rw [List.find?_eq_none]
  constructor
  · rintro h ⟨sub, hmem, hact⟩
    obtain ⟨hu, hr, ha⟩ := hact
    exact h sub hmem (by simp [hu, hr, ha])
  · intro h sub hmem hp
    refine h ⟨sub, hmem, ?_⟩
    simpa [IsActiveSub, Bool.and_eq_true, beq_iff_eq, and_assoc] using hp

lemma find_active_subscription_eq_some (db : DB) (u : UserProfile)
    (r : Recipient) (sub : Subscription)
    (h : find_active_subscription db u r = some sub) :
    sub ∈ db.subscriptions ∧ IsActiveSub u r sub := by
  refine ⟨List.mem_of_find?_eq_some h, ?_⟩
  have hp := List.find?_some h
  simpa [IsActiveSub, Bool.and_eq_true, beq_iff_eq, and_assoc] using hp

lemma access_stream_common_cross_realm (db : DB) (u : UserProfile) (s : Stream)
    (e : String) (h : s.realm_id ≠ u.realm_id) :
    access_stream_common db u s e = .error (.jsonableError e) := by
  unfold access_stream_common
  simp [h]

lemma access_stream_common_same_realm (db : DB) (u : UserProfile) (s : Stream)
    (e : String) (r : Recipient)
    (hrealm : s.realm_id = u.realm_id)
    (hrecip : get_recipient db Recipient.STREAM s.id = some r) :
    access_stream_common db u s e =
      (if s.is_public then
        .ok (r, find_active_subscription db u r)
      else
        match find_active_subscription db u r with
        | some sub => .ok (r, some sub)
        | none => .error (.jsonableError e)) := by
  unfold access_stream_common
  simp [hrealm, hrecip]

/-- C2: for every user and every stream whose realm differs from the
realm of the user, access_stream_common fails with the caller-supplied
JsonableError for every database, so no recipient or subscription lookup
outcome can make it succeed. -/
theorem check_access_cross_realm_denied (db : DB) (u : UserProfile) (s : Stream)
    (e : String) (h : s.realm_id ≠ u.realm_id) :
    access_stream_common db u s e = .error (.jsonableError e) :=
  access_stream_common_cross_realm db u s e h

/-- C1: for a private (invite_only) stream in the realm of the user whose
recipient resolves, access_stream_common succeeds if and only if an active
subscription of the user to that recipient exists; on success it returns
the recipient paired with such a subscription record, and otherwise it
fails with the caller-supplied JsonableError. -/
theorem check_access_private_iff_subscribed (db : DB) (u : UserProfile)
    (s : Stream) (e : String) (r : Recipient)
    (hrealm : s.realm_id = u.realm_id) (hpriv : s.invite_only = true)
    (hrecip : get_recipient db Recipient.STREAM s.id = some r) :
    ((∃ sub ∈ db.subscriptions, IsActiveSub u r sub) →
      ∃ sub ∈ db.subscriptions, IsActiveSub u r sub ∧
        access_stream_common db u s e = .ok (r, some sub)) ∧
    ((¬ ∃ sub ∈ db.subscriptions, IsActiveSub u r sub) →
      access_stream_common db u s e = .error (.jsonableError e)) := by
  have hbase := access_stream_common_same_realm db u s e r hrealm hrecip
  have hpub : s.is_public = false := by simp [Stream.is_public, hpriv]
  rw [hpub] at hbase
  simp only [if_false, Bool.false_eq_true] at hbase
  constructor
  · intro hex
    cases hfind : find_active_subscription db u r with
    | none =>
      exact absurd hex ((find_active_subscription_eq_none_iff db u r).mp hfind)
    | some sub =>
      obtain ⟨hmem, hact⟩ := find_active_subscription_eq_some db u r sub hfind
      refine ⟨sub, hmem, hact, ?_⟩
      rw [hbase, hfind]
  · intro hnex
    have hnone : find_active_subscription db u r = none :=
      (find_active_subscription_eq_none_iff db u r).mpr hnex
    rw [hbase, hnone]

/-- C3: for a public (non-invite-only) stream in the realm of the user
whose recipient resolves, access_stream_common succeeds regardless of
subscription state, returning the recipient together with an active
subscription of the user when one exists and none otherwise. -/
theorem check_access_public_succeeds (db : DB) (u : UserProfile)
    (s : Stream) (e : String) (r : Recipient)
    (hrealm : s.realm_id = u.realm_id) (hpub : s.invite_only = false)
    (hrecip : get_recipient db Recipient.STREAM s.id = some r) :
    ((∃ sub ∈ db.subscriptions, IsActiveSub u r sub) →
      ∃ sub ∈ db.subscriptions, IsActiveSub u r sub ∧
        access_stream_common db u s e = .ok (r, some sub)) ∧
    ((¬ ∃ sub ∈ db.subscriptions, IsActiveSub u r sub) →
      access_stream_common db u s e = .ok (r, none)) := by
  have hbase := access_stream_common_same_realm db u s e r hrealm hrecip
  have hp : s.is_public = true := by simp [Stream.is_public, hpub]
  rw [hp] at hbase
  simp only [if_true] at hbase
  constructor
  · intro hex
    cases hfind : find_active_subscription db u r with
    | none =>
      exact absurd hex ((find_active_subscription_eq_none_iff db u r).mp hfind)
    | some sub =>
      obtain ⟨hmem, hact⟩ := find_active_subscription_eq_some db u r sub hfind
      refine ⟨sub, hmem, hact, ?_⟩
      rw [hbase, hfind]
  · intro hnex
    have hnone : find_active_subscription db u r = none :=
      (find_active_subscription_eq_none_iff db u r).mpr hnex
    rw [hbase, hnone]

/-- A concrete user in realm 1 of the running example. -/
def exUser : UserProfile := ⟨1, 1⟩

/-- A concrete public stream in realm 1. -/
def exPublic : Zulip.Stream := ⟨1, 1, "general", false⟩

/-- A concrete private stream in realm 1 the example user is subscribed
to. -/
def exPrivSub : Zulip.Stream := ⟨2, 1, "secret", true⟩

/-- A concrete private stream in realm 1 the example user is not
subscribed to. -/
def exPrivUnsub : Zulip.Stream := ⟨3, 1, "hidden", true⟩

/-- A concrete public stream in realm 2, foreign to the example user. -/
def exForeign : Zulip.Stream := ⟨4, 2, "foreign", false⟩

/-- The recipient of exPublic. -/
def exRecip1 : Recipient := ⟨11, 2, 1⟩

/-- The recipient of exPrivSub. -/
def exRecip2 : Recipient := ⟨12, 2, 2⟩

/-- The recipient of exPrivUnsub. -/
def exRecip3 : Recipient := ⟨13, 2, 3⟩

/-- The recipient of exForeign. -/
def exRecip4 : Recipient := ⟨14, 2, 4⟩

/-- The active subscription of exUser to the recipient of exPrivSub. -/
def exSub : Subscription := ⟨21, 1, 12, true⟩

/-- The concrete example database. -/
def exDB : DB :=
  ⟨[exPublic, exPrivSub, exPrivUnsub, exForeign],
   [exRecip1, exRecip2, exRecip3, exRecip4], [exSub]⟩

instance (u : UserProfile) (r : Recipient) (sub : Subscription) :
    Decidable (IsActiveSub u r sub) := by
  unfold IsActiveSub
  infer_instance

lemma access_stream_common_private_unsubscribed (db : DB) (u : UserProfile)
    (s : Stream) (e : String) (r : Recipient)
    (hrealm : s.realm_id = u.realm_id) (hpriv : s.invite_only = true)
    (hrecip : get_recipient db Recipient.STREAM s.id = some r)
    (hnex : ¬ ∃ sub ∈ db.subscriptions, IsActiveSub u r sub) :
    access_stream_common db u s e = .error (.jsonableError e) := by
  rw [access_stream_common_same_realm db u s e r hrealm hrecip]
  have hnone : find_active_subscription db u r = none :=
    (find_active_subscription_eq_none_iff db u r).mpr hnex
  simp [Stream.is_public, hpriv, hnone]

lemma get_stream_eq_some (db : DB) (stream_name : String) (realm_id : Nat)
    (s : Stream) (h : get_stream db stream_name realm_id = some s) :
    s ∈ db.streams ∧ s.name = stream_name ∧ s.realm_id = realm_id := by
  refine ⟨List.mem_of_find?_eq_some h, ?_⟩
  have hp := List.find?_some h
  simpa [Bool.and_eq_true, beq_iff_eq] using hp

/-- Witness for C2 at a concrete cross-realm input. -/
theorem check_access_cross_realm_denied_witness :
    access_stream_common exDB exUser exForeign "e" =
      .error (.jsonableError "e") :=
  check_access_cross_realm_denied exDB exUser exForeign "e" (by decide)

/-- Witness for C1 at a concrete private stream. -/
theorem check_access_private_iff_subscribed_witness :
    ((∃ sub ∈ exDB.subscriptions, IsActiveSub exUser exRecip2 sub) →
      ∃ sub ∈ exDB.subscriptions, IsActiveSub exUser exRecip2 sub ∧
        access_stream_common exDB exUser exPrivSub "e" = .ok (exRecip2, some sub)) ∧
    ((¬ ∃ sub ∈ exDB.subscriptions, IsActiveSub exUser exRecip2 sub) →
      access_stream_common exDB exUser exPrivSub "e" =
        .error (.jsonableError "e")) :=
  check_access_private_iff_subscribed exDB exUser exPrivSub "e" exRecip2
    (by decide) (by decide) (by decide)

/-- Witness for C3 at a concrete public stream. -/
theorem check_access_public_succeeds_witness :
    ((∃ sub ∈ exDB.subscriptions, IsActiveSub exUser exRecip1 sub) →
      ∃ sub ∈ exDB.subscriptions, IsActiveSub exUser exRecip1 sub ∧
        access_stream_common exDB exUser exPublic "e" = .ok (exRecip1, some sub)) ∧
    ((¬ ∃ sub ∈ exDB.subscriptions, IsActiveSub exUser exRecip1 sub) →
      access_stream_common exDB exUser exPublic "e" = .ok (exRecip1, none)) :=
  check_access_public_succeeds exDB exUser exPublic "e" exRecip1
    (by decide) (by decide) (by decide)

/-- C4 counterexample: at a concrete input with no stream of the queried
id, access_stream_by_id fails carrying the message "Invalid stream id",
which is not the text "invalid stream id" stated by the claim. -/
theorem access_stream_by_id_message_counterexample :
    access_stream_by_id exDB exUser 7 =
      .error (.jsonableError "Invalid stream id") ∧
    ("Invalid stream id" : String) ≠ "invalid stream id" :=
  ⟨rfl, by decide⟩

/-- C4 (amended): access_stream_by_id fails with byte-identical error
text in the id-not-found case, the cross-realm case, and the
found-but-private-unsubscribed case, the message being the fixed generic
text "Invalid stream id" in all three. -/
theorem access_stream_by_id_uniform_errors (db : DB) (u : UserProfile)
    (stream_id : Nat) :
    (get_stream_by_id db stream_id = none →
      access_stream_by_id db u stream_id =
        .error (.jsonableError "Invalid stream id")) ∧
    (∀ s, get_stream_by_id db stream_id = some s → s.realm_id ≠ u.realm_id →
      access_stream_by_id db u stream_id =
        .error (.jsonableError "Invalid stream id")) ∧
    (∀ s r, get_stream_by_id db stream_id = some s →
      s.realm_id = u.realm_id → s.invite_only = true →
      get_recipient db Recipient.STREAM s.id = some r →
      (¬ ∃ sub ∈ db.subscriptions, IsActiveSub u r sub) →
      access_stream_by_id db u stream_id =
        .error (.jsonableError "Invalid stream id")) := by
  refine ⟨?_, ?_, ?_⟩
  · intro h
    unfold access_stream_by_id
    rw [h]
  · intro s hs hrealm
    have hcom := access_stream_common_cross_realm db u s "Invalid stream id" hrealm
    unfold access_stream_by_id
    rw [hs]
    simp [hcom]
  · intro s r hs hrealm hpriv hrecip hnex
    have hcom := access_stream_common_private_unsubscribed db u s
      "Invalid stream id" r hrealm hpriv hrecip hnex
    unfold access_stream_by_id
    rw [hs]
    simp [hcom]

/-- Witness for the amended C4: the private-unsubscribed stream and the
missing id both yield the identical generic message. -/
theorem access_stream_by_id_uniform_errors_witness :
    access_stream_by_id exDB exUser 3 =
      .error (.jsonableError "Invalid stream id") :=
  (access_stream_by_id_uniform_errors exDB exUser 3).2.2 exPrivUnsub exRecip3
    rfl rfl rfl rfl (by decide)

/-- C8: access_stream_by_name looks the name up scoped to the realm of
the user, and both in the name-not-found case and in the
found-but-private-unsubscribed case it fails with a JsonableError whose
message embeds the queried name in quotes, the same name-bearing text in
both cases. -/
theorem access_stream_by_name_uniform_errors (db : DB) (u : UserProfile)
    (stream_name : String) :
    (∀ s, get_stream db stream_name u.realm_id = some s →
      s ∈ db.streams ∧ s.name = stream_name ∧ s.realm_id = u.realm_id) ∧
    (get_stream db stream_name u.realm_id = none →
      access_stream_by_name db u stream_name =
        .error (.jsonableError (invalid_stream_name_message stream_name))) ∧
    (∀ s r, get_stream db stream_name u.realm_id = some s →
      s.invite_only = true →
      get_recipient db Recipient.STREAM s.id = some r →
      (¬ ∃ sub ∈ db.subscriptions, IsActiveSub u r sub) →
      access_stream_by_name db u stream_name =
        .error (.jsonableError (invalid_stream_name_message stream_name))) := by
  refine ⟨?_, ?_, ?_⟩
  · intro s hs
    exact get_stream_eq_some db stream_name u.realm_id s hs
  · intro h
    unfold access_stream_by_name
    rw [h]
  · intro s r hs hpriv hrecip hnex
    have hrealm : s.realm_id = u.realm_id :=
      (get_stream_eq_some db stream_name u.realm_id s hs).2.2
    have hcom := access_stream_common_private_unsubscribed db u s
      (invalid_stream_name_message stream_name) r hrealm hpriv hrecip hnex
    unfold access_stream_by_name
    rw [hs]
    simp [hcom]

/-- Witness for C8: the denied private stream yields the name-bearing
message for the queried name. -/
theorem access_stream_by_name_uniform_errors_witness :
    access_stream_by_name exDB exUser "hidden" =
      .error (.jsonableError (invalid_stream_name_message "hidden")) :=
  (access_stream_by_name_uniform_errors exDB exUser "hidden").2.2
    exPrivUnsub exRecip3 rfl rfl rfl (by decide)

/-- The property that the user has an active subscription to the
recipient of the stream, the recipient being resolved by get_recipient. -/
def SubscribedTo (db : DB) (u : UserProfile) (s : Stream) : Prop :=
  ∃ r, get_recipient db Recipient.STREAM s.id = some r ∧
    ∃ sub ∈ db.subscriptions, IsActiveSub u r sub

lemma mem_fsa_recipient_values (db : DB) (streams : List Stream)
    (r : Recipient) :
    r ∈ fsa_recipient_values db streams ↔
      r ∈ db.recipients ∧ r.type = Recipient.STREAM ∧
        r.type_id ∈ streams.map (fun s => s.id) := by
  unfold fsa_recipient_values fsa_recipients_map bulk_get_recipients
  simp [List.mem_filter, Bool.and_eq_true, beq_iff_eq, List.elem_iff,
    and_assoc]
  constructor
  · rintro ⟨a, ha, htype, hex, rfl⟩
    exact ⟨ha, htype, hex⟩
  · rintro ⟨ha, htype, hex⟩
    exact ⟨r, ha, htype, hex, rfl⟩

lemma find?_eq_some_of_nodup_key {α β : Type} [DecidableEq β] (l : List α)
    (g : α → β) (p : α → Bool) (v : β) (hp : ∀ x, p x = true ↔ g x = v)
    (hnodup : (l.map g).Nodup) (a : α) (ha : a ∈ l) (hav : g a = v) :
    l.find? p = some a := by
  cases hfind : l.find? p with
  | none =>
    rw [List.find?_eq_none] at hfind
    exact absurd ((hp a).mpr hav) (hfind a ha)
  | some b =>
    have hb : b ∈ l := List.mem_of_find?_eq_some hfind
    have hgb : g b = v := (hp b).mp (List.find?_some hfind)
    have hba : b = a :=
      List.inj_on_of_nodup_map hnodup hb ha (by rw [hgb, hav])
    rw [hba]

lemma get_recipient_eq_some (db : DB) (rtype type_id : Nat) (r : Recipient)
    (h : get_recipient db rtype type_id = some r) :
    r ∈ db.recipients ∧ r.type = rtype ∧ r.type_id = type_id := by
  refine ⟨List.mem_of_find?_eq_some h, ?_⟩
  have hp := List.find?_some h
  simpa [Bool.and_eq_true, beq_iff_eq] using hp

lemma get_recipient_of_mem (db : DB) (hwf : db.WF) (r : Recipient)
    (hr : r ∈ db.recipients) (ht : r.type = Recipient.STREAM) :
    get_recipient db Recipient.STREAM r.type_id = some r := by
  unfold get_recipient
  refine find?_eq_some_of_nodup_key db.recipients
    (fun x => (x.type, x.type_id)) _ (Recipient.STREAM, r.type_id) ?_ hwf.2
    r hr (by simp [ht])
  intro x
  simp [Bool.and_eq_true, beq_iff_eq, Prod.ext_iff]

lemma find_recipient_by_id (db : DB) (hwf : db.WF) (r : Recipient)
    (hr : r ∈ db.recipients) :
    db.recipients.find? (fun x => x.id == r.id) = some r := by
  refine find?_eq_some_of_nodup_key db.recipients (fun x => x.id) _ r.id ?_
    hwf.1 r hr rfl
  intro x
  simp [beq_iff_eq]

lemma mem_fsa_streams_subscribed (db : DB) (u : UserProfile)
    (streams : List Stream) (hwf : db.WF) (s : Stream) (hs : s ∈ streams) :
    s.id ∈ fsa_streams_subscribed db u streams ↔ SubscribedTo db u s := by
  unfold fsa_streams_subscribed
  rw [List.mem_filterMap]
  constructor
  · rintro ⟨sub, hsub, hopt⟩
    rw [Option.map_eq_some'] at hopt
    obtain ⟨r', hfind, htid⟩ := hopt
    have hr'mem : r' ∈ db.recipients := List.mem_of_find?_eq_some hfind
    have hr'id : r'.id = sub.recipient_id := by
      have hb := List.find?_some hfind
      simpa [beq_iff_eq] using hb
    unfold fsa_subs at hsub
    rw [List.mem_filter] at hsub
    obtain ⟨hsubmem, hbool⟩ := hsub
    rw [Bool.and_eq_true, Bool.and_eq_true] at hbool
    obtain ⟨⟨huid, hcont⟩, hact⟩ := hbool
    have hrv : ∃ rv ∈ fsa_recipient_values db streams,
        rv.id = sub.recipient_id := by
      have hmm := List.elem_iff.mp hcont
      simpa [List.mem_map] using hmm
    obtain ⟨rv, hrvmem, hrvid⟩ := hrv
    have hrvdb := (mem_fsa_recipient_values db streams rv).mp hrvmem
    have hr'rv : r' = rv :=
      List.inj_on_of_nodup_map hwf.1 hr'mem hrvdb.1 (by rw [hr'id, hrvid])
    have hrecip : get_recipient db Recipient.STREAM s.id = some rv := by
      have := get_recipient_of_mem db hwf rv hrvdb.1 hrvdb.2.1
      rw [← hr'rv, htid] at this
      rw [← hr'rv]
      exact this
    refine ⟨rv, hrecip, sub, hsubmem, ?_⟩
    exact ⟨by simpa [beq_iff_eq] using huid, by rw [← hrvid],
      by simpa using hact⟩
  · rintro ⟨r, hrecip, sub, hsubmem, hu, hrid, hactive⟩
    obtain ⟨hrdb, hrtype, hrtid⟩ := get_recipient_eq_some db _ _ r hrecip
    have hrvmem : r ∈ fsa_recipient_values db streams :=
      (mem_fsa_recipient_values db streams r).mpr
        ⟨hrdb, hrtype, by rw [hrtid]; exact List.mem_map_of_mem _ hs⟩
    have hsubs : sub ∈ fsa_subs db u streams := by
      unfold fsa_subs
      rw [List.mem_filter]
      refine ⟨hsubmem, ?_⟩
      rw [Bool.and_eq_true, Bool.and_eq_true]
      refine ⟨⟨by simp [hu], ?_⟩, by simp [hactive]⟩
      exact List.elem_iff.mpr
        (by rw [hrid]; exact List.mem_map_of_mem _ hrvmem)
    refine ⟨sub, hsubs, ?_⟩
    have hfind : db.recipients.find? (fun x => x.id == sub.recipient_id) =
        some r := by
      rw [hrid]
      exact find_recipient_by_id db hwf r hrdb
    rw [hfind]
    simp [hrtid]

/-- C5: for every input list and user, a stream is placed in the
unauthorized list exactly when it is an invite_only member of the input
to whose recipient the user has no active subscription; in particular a
non-invite-only stream never appears in the unauthorized list. -/
theorem filter_unauthorized_iff (db : DB) (u : UserProfile)
    (streams : List Stream) (hwf : db.WF) (s : Stream) :
    s ∈ (filter_stream_authorization db u streams).2 ↔
      s ∈ streams ∧ s.invite_only = true ∧ ¬ SubscribedTo db u s := by
  unfold filter_stream_authorization fsa_unauthorized
  rw [List.mem_filter]
  constructor
  · rintro ⟨hs, hbool⟩
    rw [Bool.and_eq_true, Bool.not_eq_true'] at hbool
    obtain ⟨hnotc, hinv⟩ := hbool
    refine ⟨hs, hinv, ?_⟩
    intro hsubto
    have hmem : s.id ∈ fsa_streams_subscribed db u streams :=
      (mem_fsa_streams_subscribed db u streams hwf s hs).mpr hsubto
    have hc : (fsa_streams_subscribed db u streams).contains s.id = true :=
      List.elem_iff.mpr hmem
    rw [hnotc] at hc
    exact Bool.false_ne_true hc
  · rintro ⟨hs, hinv, hnsub⟩
    refine ⟨hs, ?_⟩
    rw [Bool.and_eq_true, Bool.not_eq_true']
    refine ⟨?_, hinv⟩
    by_contra hne
    have hc : (fsa_streams_subscribed db u streams).contains s.id = true := by
      cases hval : (fsa_streams_subscribed db u streams).contains s.id with
      | false => exact absurd hval hne
      | true => rfl
    exact hnsub ((mem_fsa_streams_subscribed db u streams hwf s hs).mp
      (List.elem_iff.mp hc))

/-- Witness for C5 at the concrete example: the unsubscribed private
stream is unauthorized. -/
theorem filter_unauthorized_iff_witness :
    exPrivUnsub ∈ (filter_stream_authorization exDB exUser
        [exPublic, exPrivSub, exPrivUnsub, exForeign]).2 ↔
      exPrivUnsub ∈ [exPublic, exPrivSub, exPrivUnsub, exForeign] ∧
        exPrivUnsub.invite_only = true ∧
        ¬ SubscribedTo exDB exUser exPrivUnsub :=
  filter_unauthorized_iff exDB exUser
    [exPublic, exPrivSub, exPrivUnsub, exForeign] (by constructor <;> decide)
    exPrivUnsub

lemma mem_fsa_unauthorized_props (db : DB) (u : UserProfile)
    (streams : List Stream) (t : Stream)
    (ht : t ∈ fsa_unauthorized db u streams) :
    t ∈ streams ∧ t.invite_only = true := by
  unfold fsa_unauthorized at ht
  rw [List.mem_filter] at ht
  obtain ⟨hmem, hbool⟩ := ht
  rw [Bool.and_eq_true] at hbool
  exact ⟨hmem, hbool.2⟩

lemma mem_fsa_authorized_iff (db : DB) (u : UserProfile)
    (streams : List Stream) (s : Stream) :
    s ∈ fsa_authorized db u streams ↔
      s ∈ streams ∧ ∀ t ∈ fsa_unauthorized db u streams, t.id ≠ s.id := by
  unfold fsa_authorized
  rw [List.mem_filter]
  constructor
  · rintro ⟨hs, hbool⟩
    rw [Bool.not_eq_true'] at hbool
    refine ⟨hs, ?_⟩
    intro t ht heq
    have hidmem : s.id ∈ (fsa_unauthorized db u streams).map (fun t => t.id) :=
      List.mem_map.mpr ⟨t, ht, heq⟩
    have hc : ((fsa_unauthorized db u streams).map
        (fun t => t.id)).contains s.id = true := List.elem_iff.mpr hidmem
    rw [hbool] at hc
    exact Bool.false_ne_true hc
  · rintro ⟨hs, hall⟩
    refine ⟨hs, ?_⟩
    rw [Bool.not_eq_true']
    cases hval : ((fsa_unauthorized db u streams).map
        (fun t => t.id)).contains s.id with
    | false => rfl
    | true =>
      obtain ⟨t, ht, heq⟩ := List.mem_map.mp (List.elem_iff.mp hval)
      exact absurd heq (hall t ht)

lemma fsa_cover (db : DB) (u : UserProfile) (streams : List Stream)
    (hcons : ∀ s ∈ streams, ∀ t ∈ streams, s.id = t.id → s = t)
    (s : Stream) (hs : s ∈ streams) :
    s ∈ fsa_authorized db u streams ∨ s ∈ fsa_unauthorized db u streams := by
  by_cases hmem : ∃ t ∈ fsa_unauthorized db u streams, t.id = s.id
  · obtain ⟨t, ht, htid⟩ := hmem
    have htstreams := (mem_fsa_unauthorized_props db u streams t ht).1
    have hts : t = s := hcons t htstreams s hs htid
    right
    rw [← hts]
    exact ht
  · left
    rw [mem_fsa_authorized_iff]
    push_neg at hmem
    exact ⟨hs, hmem⟩

/-- C6: the authorized list equals the input filtered, in order, by
removing exactly the streams whose id is the id of some unauthorized
stream; an input stream with no unauthorized id keeps its full input
multiplicity (duplicates are not removed), and when ids identify streams
the two output lists jointly hold exactly the input streams. -/
theorem filter_authorized_characterization (db : DB) (u : UserProfile)
    (streams : List Stream)
    (hcons : ∀ s ∈ streams, ∀ t ∈ streams, s.id = t.id → s = t) :
    (filter_stream_authorization db u streams).1 =
      streams.filter (fun s =>
        !((filter_stream_authorization db u streams).2.map
          (fun t => t.id)).contains s.id) ∧
    (∀ s, s ∈ streams →
      (∀ t ∈ (filter_stream_authorization db u streams).2, t.id ≠ s.id) →
      (filter_stream_authorization db u streams).1.count s =
        streams.count s) ∧
    (∀ s, s ∈ streams ↔
      (s ∈ (filter_stream_authorization db u streams).1 ∨
        s ∈ (filter_stream_authorization db u streams).2)) := by
  refine ⟨rfl, ?_, ?_⟩
  · intro s hs hall
    have hcontains : ((fsa_unauthorized db u streams).map
        (fun t => t.id)).contains s.id = false := by
      cases hval : ((fsa_unauthorized db u streams).map
          (fun t => t.id)).contains s.id with
      | false => rfl
      | true =>
        obtain ⟨t, ht, heq⟩ := List.mem_map.mp (List.elem_iff.mp hval)
        exact absurd heq (hall t ht)
    exact List.count_filter (by rw [hcontains]; rfl)
  · intro s
    constructor
    · intro hs
      exact fsa_cover db u streams hcons s hs
    · rintro (h | h)
      · exact ((mem_fsa_authorized_iff db u streams s).mp h).1
      · exact (mem_fsa_unauthorized_props db u streams s h).1

/-- Witness for C6 at the concrete four-stream example. -/
theorem filter_authorized_characterization_witness :
    (filter_stream_authorization exDB exUser
        [exPublic, exPrivSub, exPrivUnsub, exForeign]).1 =
      [exPublic, exPrivSub, exPrivUnsub, exForeign].filter (fun s =>
        !((filter_stream_authorization exDB exUser
            [exPublic, exPrivSub, exPrivUnsub, exForeign]).2.map
          (fun t => t.id)).contains s.id) ∧
    (∀ s, s ∈ [exPublic, exPrivSub, exPrivUnsub, exForeign] →
      (∀ t ∈ (filter_stream_authorization exDB exUser
          [exPublic, exPrivSub, exPrivUnsub, exForeign]).2, t.id ≠ s.id) →
      (filter_stream_authorization exDB exUser
          [exPublic, exPrivSub, exPrivUnsub, exForeign]).1.count s =
        [exPublic, exPrivSub, exPrivUnsub, exForeign].count s) ∧
    (∀ s, s ∈ [exPublic, exPrivSub, exPrivUnsub, exForeign] ↔
      (s ∈ (filter_stream_authorization exDB exUser
          [exPublic, exPrivSub, exPrivUnsub, exForeign]).1 ∨
        s ∈ (filter_stream_authorization exDB exUser
          [exPublic, exPrivSub, exPrivUnsub, exForeign]).2)) :=
  filter_authorized_characterization exDB exUser
    [exPublic, exPrivSub, exPrivUnsub, exForeign] (by decide)

/-- C7: filter_stream_authorization performs no organization check: a
non-invite-only stream, id-unique in the input, is classified authorized
even when its realm differs from the realm of the user, while
access_stream_common rejects that same cross-realm stream. -/
theorem filter_no_realm_check (db : DB) (u : UserProfile) (s : Stream)
    (streams : List Stream) (hs : s ∈ streams)
    (hpub : s.invite_only = false)
    (hcons : ∀ t ∈ streams, t.id = s.id → t = s) :
    s ∈ (filter_stream_authorization db u streams).1 ∧
    (s.realm_id ≠ u.realm_id →
      ∀ e, access_stream_common db u s e = .error (.jsonableError e)) := by
  constructor
  · refine (mem_fsa_authorized_iff db u streams s).mpr ⟨hs, ?_⟩
    intro t ht heq
    have hprops := mem_fsa_unauthorized_props db u streams t ht
    have hts : t = s := hcons t hprops.1 heq
    rw [hts, hpub] at hprops
    exact Bool.false_ne_true hprops.2
  · intro hne e
    exact access_stream_common_cross_realm db u s e hne

/-- Witness for C7: the cross-realm public stream is authorized by the
bulk filter yet rejected by access_stream_common. -/
theorem filter_no_realm_check_witness :
    exForeign ∈ (filter_stream_authorization exDB exUser
        [exPublic, exPrivSub, exPrivUnsub, exForeign]).1 ∧
    (exForeign.realm_id ≠ exUser.realm_id →
      ∀ e, access_stream_common exDB exUser exForeign e =
        .error (.jsonableError e)) :=
  filter_no_realm_check exDB exUser exForeign
    [exPublic, exPrivSub, exPrivUnsub, exForeign]
    (by decide) (by decide) (by decide)

/-- C10: the two returned lists are disjoint by stream id, jointly cover
the input when ids identify streams, and the unauthorized list is an
in-order sublist of the input whose members keep their input
multiplicity. -/
theorem filter_partition_disjoint_cover (db : DB) (u : UserProfile)
    (streams : List Stream)
    (hcons : ∀ s ∈ streams, ∀ t ∈ streams, s.id = t.id → s = t) :
    (∀ a ∈ (filter_stream_authorization db u streams).1,
      ∀ b ∈ (filter_stream_authorization db u streams).2, a.id ≠ b.id) ∧
    (∀ s ∈ streams, s ∈ (filter_stream_authorization db u streams).1 ∨
      s ∈ (filter_stream_authorization db u streams).2) ∧
    (filter_stream_authorization db u streams).2.Sublist streams ∧
    (∀ s ∈ (filter_stream_authorization db u streams).2,
      (filter_stream_authorization db u streams).2.count s =
        streams.count s) := by
  refine ⟨?_, ?_, ?_, ?_⟩
  · intro a ha b hb heq
    exact ((mem_fsa_authorized_iff db u streams a).mp ha).2 b hb heq.symm
  · intro s hs
    exact fsa_cover db u streams hcons s hs
  · exact List.filter_sublist streams
  · intro s hsm
    have hsm2 : s ∈ streams.filter (fun stream =>
        !(fsa_streams_subscribed db u streams).contains stream.id &&
        stream.invite_only) := hsm
    rw [List.mem_filter] at hsm2
    exact List.count_filter hsm2.2

/-- Witness for C10 at the concrete four-stream example. -/
theorem filter_partition_disjoint_cover_witness :
    (∀ a ∈ (filter_stream_authorization exDB exUser
        [exPublic, exPrivSub, exPrivUnsub, exForeign]).1,
      ∀ b ∈ (filter_stream_authorization exDB exUser
        [exPublic, exPrivSub, exPrivUnsub, exForeign]).2, a.id ≠ b.id) ∧
    (∀ s ∈ [exPublic, exPrivSub, exPrivUnsub, exForeign],
      s ∈ (filter_stream_authorization exDB exUser
        [exPublic, exPrivSub, exPrivUnsub, exForeign]).1 ∨
      s ∈ (filter_stream_authorization exDB exUser
        [exPublic, exPrivSub, exPrivUnsub, exForeign]).2) ∧
    (filter_stream_authorization exDB exUser
      [exPublic, exPrivSub, exPrivUnsub, exForeign]).2.Sublist
        [exPublic, exPrivSub, exPrivUnsub, exForeign] ∧
    (∀ s ∈ (filter_stream_authorization exDB exUser
        [exPublic, exPrivSub, exPrivUnsub, exForeign]).2,
      (filter_stream_authorization exDB exUser
        [exPublic, exPrivSub, exPrivUnsub, exForeign]).2.count s =
        [exPublic, exPrivSub, exPrivUnsub, exForeign].count s) :=
  filter_partition_disjoint_cover exDB exUser
    [exPublic, exPrivSub, exPrivUnsub, exForeign] (by decide)

/-- A collaborator round-trip performed by filter_stream_authorization:
either the bulk recipient lookup or the bulk active-subscription query. -/
inductive CollabCall where
  | bulkGetRecipients (rtype : Nat) (type_ids : List Nat)
  | activeSubscriptionQuery (user_id : Nat) (recipient_ids : List Nat)
deriving DecidableEq

/-- The bulk recipient lookup as a logged collaborator call. -/
def call_bulk_get_recipients (db : DB) (rtype : Nat) (type_ids : List Nat)
    (log : List CollabCall) : List (Nat × Recipient) × List CollabCall :=
  (bulk_get_recipients db rtype type_ids,
   log ++ [CollabCall.bulkGetRecipients rtype type_ids])

/-- The bulk active-subscription query as a logged collaborator call. -/
def call_active_subscriptions (db : DB) (user_id : Nat)
    (recipient_ids : List Nat) (log : List CollabCall) :
    List Subscription × List CollabCall :=
  (db.subscriptions.filter (fun sub =>
     sub.user_profile_id == user_id &&
     recipient_ids.contains sub.recipient_id &&
     sub.active),
   log ++ [CollabCall.activeSubscriptionQuery user_id recipient_ids])

/-- filter_stream_authorization with its collaborator round-trips
logged: the same computation as the unlogged function, recording each
bulk query it issues against the read-only database. -/
def filter_stream_authorization_logged (db : DB) (user_profile : UserProfile)
    (streams : List Stream) :
    (List Stream × List Stream) × List CollabCall :=
  let step1 := call_bulk_get_recipients db Recipient.STREAM
    (streams.map (fun s => s.id)) []
  let recipients_map := step1.1
  let recipient_values := recipients_map.map (fun p => p.2)
  let step2 := call_active_subscriptions db user_profile.id
    (recipient_values.map (fun r => r.id)) step1.2
  let subs := step2.1
  let streams_subscribed := subs.filterMap (fun sub =>
    (db.recipients.find? (fun r => r.id == sub.recipient_id)).map
      (fun r => r.type_id))
  let unauthorized_streams := streams.filter (fun stream =>
    !streams_subscribed.contains stream.id && stream.invite_only)
  let authorized_streams := streams.filter (fun stream =>
    !(unauthorized_streams.map (fun t => t.id)).contains stream.id)
  ((authorized_streams, unauthorized_streams), step2.2)

/-- C9: for every input list, of any length, the logged run of
filter_stream_authorization issues exactly the two bulk collaborator
calls, one bulk recipient lookup followed by one bulk subscription
fetch, independently of the input size, and it computes the same
classification as the unlogged function; the embedding is a pure read of
the database, with no mutation representable. -/
theorem filter_logged_exactly_two_calls (db : DB) (u : UserProfile)
    (streams : List Stream) :
    (filter_stream_authorization_logged db u streams).2 =
      [CollabCall.bulkGetRecipients Recipient.STREAM
        (streams.map (fun s => s.id)),
       CollabCall.activeSubscriptionQuery u.id
        ((fsa_recipient_values db streams).map (fun r => r.id))] ∧
    (filter_stream_authorization_logged db u streams).2.length = 2 ∧
    (filter_stream_authorization_logged db u streams).1 =
      filter_stream_authorization db u streams :=
  ⟨rfl, rfl, rfl⟩

end Zulip
